import Mathlib

/-!
Shallow embedding of `Scripts/export_coreml.py` from the SpatialYOLO
repository.  The script's whole module body is two statements:
`model = YOLO("yolo26n.pt")` followed by
`model.export(format="coreml", imgsz=640)`.
The external ultralytics library is not part of the repository; it is
represented abstractly by `LibBehavior` and, where a claim depends on the
library's documented effect on the filesystem, by the spec-modelled
`UltralyticsModel`.
-/

/-- An error raised inside the external ultralytics library: a missing
checkpoint file on load, an unsupported format string, or an internal
tracing/conversion failure during export. -/
inductive LibError where
  | missingCheckpoint
  | unsupportedFormat
  | conversionError
  deriving DecidableEq, Repr

/-- A call the script issues to the external ultralytics library:
`yoloInit p` embeds the constructor `YOLO(p)`, and `yoloExport m f s`
embeds `m.export(format=f, imgsz=s)` on the model handle `m`. -/
inductive Call (Handle : Type) where
  | yoloInit (checkpoint : String)
  | yoloExport (handle : Handle) (fmt : String) (imgsz : Nat)
  deriving DecidableEq, Repr

/-- The process-level inputs a Python invocation could in principle observe:
command-line arguments, environment variables, standard input, and the
module's `__name__` binding (`"__main__"` when run as a command, the module
path when imported).  `export_coreml.py` references none of these. -/
structure Invocation where
  argv : List String
  env : List (String × String)
  stdin : String
  moduleName : String
  deriving DecidableEq, Repr

/-- The invocation with its `__name__` binding set as if run as a command. -/
def Invocation.asMain (inv : Invocation) : Invocation :=
  ⟨inv.argv, inv.env, inv.stdin, "__main__"⟩

/-- Abstract behavior of the external ultralytics library over an abstract
handle type `Handle`, export-return type `Ret` and filesystem-state type
`FSt`.  `init` embeds the `YOLO(path)` constructor (reads the filesystem,
may fail); `exp` embeds `handle.export(format=..., imgsz=...)`, which on
success yields the updated filesystem state together with a return value
(an artifact path string in ultralytics; the script discards it).  A
failing call raises a `LibError`; an `Except.error` outcome carries no
filesystem update, matching the spec's statement that a failed invocation
produces no output artifact. -/
structure LibBehavior (Handle Ret FSt : Type) where
  init : FSt → String → Except LibError Handle
  exp : FSt → Handle → String → Nat → Except LibError (FSt × Ret)

/-- The same library with the export call's return value transformed by `g`,
error and filesystem behavior unchanged.  Used to state that the script
discards that return value. -/
def LibBehavior.mapRet {H R R2 F : Type} (lib : LibBehavior H R F)
    (g : R → R2) : LibBehavior H R2 F :=
  ⟨lib.init, fun fs m f s => (lib.exp fs m f s).map (fun p => (p.1, g p.2))⟩

/-- Observable outcome of one run of the script: the process exit
(`Except.ok ()` for exit status 0, `Except.error e` for termination by the
unhandled library failure `e`), the ordered trace of library calls issued,
and the final filesystem state. -/
structure RunResult (Handle FSt : Type) where
  exit : Except LibError Unit
  calls : List (Call Handle)
  fs : FSt
  deriving Repr

/-- The module body of `Scripts/export_coreml.py` with its three literals
abstracted as parameters: `model = YOLO(ckpt)` then
`model.export(format=fmt, imgsz=sz)`.  The export's return value is
discarded, and an unhandled `LibError` from either call terminates the run
with that error and no further action. -/
def invoker {H R F : Type} (lib : LibBehavior H R F) (ckpt fmt : String)
    (sz : Nat) (fs0 : F) : RunResult H F :=
  match lib.init fs0 ckpt with
  | .error e => ⟨.error e, [.yoloInit ckpt], fs0⟩
  | .ok m =>
      match lib.exp fs0 m fmt sz with
      | .error e => ⟨.error e, [.yoloInit ckpt, .yoloExport m fmt sz], fs0⟩
      | .ok r => ⟨.ok (), [.yoloInit ckpt, .yoloExport m fmt sz], r.1⟩

/-- A run of `Scripts/export_coreml.py`: the module body executes
`model = YOLO("yolo26n.pt"); model.export(format="coreml", imgsz=640)`
unconditionally — the source has no entry-point guard and no reference to
`sys.argv`, `os.environ` or standard input, so every field of the
invocation goes unread. -/
def runScript {H R F : Type} (lib : LibBehavior H R F) (inv : Invocation)
    (fs0 : F) : RunResult H F :=
  invoker lib "yolo26n.pt" "coreml" 640 fs0

/-- Filesystem state as the export pipeline sees it: serialized checkpoints
and exported artifacts, each addressed by a path string. -/
structure FS (C A : Type) where
  ckpts : String → Option C
  arts : String → Option A

/-- Modelled from the spec: the conversion pipeline inside the external
ultralytics library, which is absent from this repository.  Per the spec the
export is a deterministic function of the checkpoint content, format and
image size, it writes its artifact at a path derived from the checkpoint
name by the library's own naming convention, and it overwrites any previous
artifact at that path. -/
structure UltralyticsModel (C A : Type) where
  artifactOf : C → String → Nat → A
  derivedPath : String → String
  supported : String → Bool
  converts : C → String → Nat → Bool

/-- The `LibBehavior` induced by a spec-modelled `UltralyticsModel`: the
constructor loads the checkpoint content (failing when the path names no
file) and the handle remembers content and path; export fails on an
unsupported format or a conversion failure, and otherwise writes the
deterministic artifact at the derived path, returning that path. -/
def UltralyticsModel.behavior {C A : Type} (L : UltralyticsModel C A) :
    LibBehavior (C × String) String (FS C A) :=
  ⟨fun fs path =>
      match fs.ckpts path with
      | none => .error .missingCheckpoint
      | some c => .ok (c, path),
    fun fs m fmt sz =>
      if L.supported fmt then
        if L.converts m.1 fmt sz then
          .ok (⟨fs.ckpts,
                fun p =>
                  if p = L.derivedPath m.2 then some (L.artifactOf m.1 fmt sz)
                  else fs.arts p⟩,
               L.derivedPath m.2)
        else .error .conversionError
      else .error .unsupportedFormat⟩

/-- A concrete always-succeeding library over trivial handle and artifact
types, used to instantiate theorems at a concrete input. -/
def okLib : LibBehavior Unit Unit Bool :=
  ⟨fun _ _ => .ok (), fun _ _ _ _ => .ok (true, ())⟩

/-- A concrete library whose constructor always fails with a missing
checkpoint, used to instantiate the error-path theorems. -/
def badLib : LibBehavior Unit Unit Bool :=
  ⟨fun _ _ => .error .missingCheckpoint, fun _ _ _ _ => .ok (true, ())⟩

/-- A concrete invocation context. -/
def inv0 : Invocation := ⟨[], [], "", "__main__"⟩

/-- A second concrete invocation context, differing from `inv0` in every
field. -/
def inv1 : Invocation :=
  ⟨["--imgsz", "320"], [("HOME", "/root")], "y\n", "Scripts.export_coreml"⟩

/-- C1: every run issues exactly the source's two operations in order —
first the `YOLO("yolo26n.pt")` construction, then, on the very handle that
construction returned, a single export call carrying exactly the format
identifier and the image size; when construction fails the trace stops
after it, so no other operation ever occurs, and the export call's return
value is discarded: transforming it inside the library leaves the run's
outcome unchanged. -/
theorem run_issues_exactly_two_calls {H R R2 : Type} {F : Type}
    (lib : LibBehavior H R F) (g : R → R2) (inv : Invocation) (fs0 : F) :
    ((runScript lib inv fs0).calls =
      match lib.init fs0 "yolo26n.pt" with
      | .error _ => [Call.yoloInit "yolo26n.pt"]
      | .ok m => [Call.yoloInit "yolo26n.pt", Call.yoloExport m "coreml" 640]) ∧
    runScript (lib.mapRet g) inv fs0 = runScript lib inv fs0 := by
  constructor
  · cases hi : lib.init fs0 "yolo26n.pt" with
    | error e => simp [runScript, invoker, hi]
    | ok m =>
      cases he : lib.exp fs0 m "coreml" 640 with
      | error e => simp [runScript, invoker, hi, he]
      | ok r => simp [runScript, invoker, hi, he]
  · cases hi : lib.init fs0 "yolo26n.pt" with
    | error e => simp [runScript, invoker, LibBehavior.mapRet, hi]
    | ok m =>
      cases he : lib.exp fs0 m "coreml" 640 with
      | error e =>
        simp [runScript, invoker, LibBehavior.mapRet, hi, he, Except.map]
      | ok r =>
        simp [runScript, invoker, LibBehavior.mapRet, hi, he, Except.map]

/-- C2: failures propagate unhandled and a failure-free run exits 0: the
run's exit is `Except.ok ()` exactly when both library calls succeed, and
it is `Except.error e` exactly when the constructor fails with `e`, or the
constructor succeeds and the export fails with `e` — the library's own
error, untranslated. -/
theorem run_fails_iff_library_fails {H R : Type} {F : Type}
    (lib : LibBehavior H R F) (inv : Invocation) (fs0 : F) :
    ((runScript lib inv fs0).exit = Except.ok () ↔
      ∃ m r, lib.init fs0 "yolo26n.pt" = Except.ok m ∧
        lib.exp fs0 m "coreml" 640 = Except.ok r) ∧
    ∀ e : LibError,
      ((runScript lib inv fs0).exit = Except.error e ↔
        (lib.init fs0 "yolo26n.pt" = Except.error e ∨
          ∃ m, lib.init fs0 "yolo26n.pt" = Except.ok m ∧
            lib.exp fs0 m "coreml" 640 = Except.error e)) := by
  cases hi : lib.init fs0 "yolo26n.pt" with
  | error e0 =>
    have hx : (runScript lib inv fs0).exit = Except.error e0 := by
      simp [runScript, invoker, hi]
    refine ⟨?_, ?_⟩
    · rw [hx]
      constructor
      · intro h; cases h
      · rintro ⟨m, r, hm, _⟩
        cases hm
    · intro e
      rw [hx]
      constructor
      · intro h
        injection h with h
        subst h
        exact Or.inl rfl
      · rintro (h | ⟨m, hm, _⟩)
        · injection h with h
          subst h
          rfl
        · cases hm
  | ok m =>
    cases he : lib.exp fs0 m "coreml" 640 with
    | error e0 =>
      have hx : (runScript lib inv fs0).exit = Except.error e0 := by
        simp [runScript, invoker, hi, he]
      refine ⟨?_, ?_⟩
      · rw [hx]
        constructor
        · intro h; cases h
        · rintro ⟨m2, r, hm2, hr⟩
          injection hm2 with hm2; subst hm2
          rw [he] at hr; cases hr
      · intro e
        rw [hx]
        constructor
        · intro h
          injection h with h
          subst h
          exact Or.inr ⟨m, rfl, he⟩
        · rintro (h | ⟨m2, hm2, h2⟩)
          · cases h
          · injection hm2 with hm2; subst hm2
            rw [he] at h2; injection h2 with h2; rw [h2]
    | ok r =>
      have hx : (runScript lib inv fs0).exit = Except.ok () := by
        simp [runScript, invoker, hi, he]
      refine ⟨?_, ?_⟩
      · rw [hx]
        exact ⟨fun _ => ⟨m, r, rfl, he⟩, fun _ => rfl⟩
      · intro e
        rw [hx]
        constructor
        · intro h; cases h
        · rintro (h | ⟨m2, hm2, h2⟩)
          · cases h
          · injection hm2 with hm2; subst hm2
            rw [he] at h2; cases h2

/-- C3: there is no command-line surface: two runs under arbitrary
invocation contexts are identical, and the trace of a run is either the
lone hard-coded construction call or that call followed by the export call
with the hard-coded format `"coreml"` and image size `640` — no invocation
can change the values passed to the library. -/
theorem hardcoded_parameters {H R : Type} {F : Type}
    (lib : LibBehavior H R F) (fs0 : F) (inv inv2 : Invocation) :
    runScript lib inv fs0 = runScript lib inv2 fs0 ∧
    ((runScript lib inv fs0).calls = [Call.yoloInit "yolo26n.pt"] ∨
      ∃ m, (runScript lib inv fs0).calls =
        [Call.yoloInit "yolo26n.pt", Call.yoloExport m "coreml" 640]) := by
  refine ⟨rfl, ?_⟩
  cases hi : lib.init fs0 "yolo26n.pt" with
  | error e => left; simp [runScript, invoker, hi]
  | ok m =>
    cases he : lib.exp fs0 m "coreml" 640 with
    | error e => right; exact ⟨m, by simp [runScript, invoker, hi, he]⟩
    | ok r => right; exact ⟨m, by simp [runScript, invoker, hi, he]⟩

/-- C4: the error path is atomic: a run that terminates with an unhandled
library failure has a nonzero exit status and leaves the filesystem in its
initial state, so no output artifact is gained. -/
theorem error_path_is_atomic {H R : Type} {F : Type}
    (lib : LibBehavior H R F) (inv : Invocation) (fs0 : F) (e : LibError)
    (h : (runScript lib inv fs0).exit = Except.error e) :
    (runScript lib inv fs0).exit ≠ Except.ok () ∧
      (runScript lib inv fs0).fs = fs0 := by
  cases hi : lib.init fs0 "yolo26n.pt" with
  | error e0 =>
    refine ⟨?_, ?_⟩
    · rw [h]; intro hc; cases hc
    · simp [runScript, invoker, hi]
  | ok m =>
    cases he : lib.exp fs0 m "coreml" 640 with
    | error e0 =>
      refine ⟨?_, ?_⟩
      · rw [h]; intro hc; cases hc
      · simp [runScript, invoker, hi, he]
    | ok r =>
      have hx : (runScript lib inv fs0).exit = Except.ok () := by
        simp [runScript, invoker, hi, he]
      rw [hx] at h; cases h

/-- Instantiation of `error_path_is_atomic` at the concrete failing library
`badLib`, whose constructor raises a missing-checkpoint error. -/
theorem error_path_is_atomic_witness :
    (runScript badLib inv0 false).exit =
        Except.error LibError.missingCheckpoint ∧
      ((runScript badLib inv0 false).exit ≠ Except.ok () ∧
        (runScript badLib inv0 false).fs = false) :=
  ⟨rfl, error_path_is_atomic badLib inv0 false LibError.missingCheckpoint rfl⟩

/-- C5: re-running with the same inputs is idempotent in effect for the
spec-modelled deterministic library: a second run started from the first
run's final filesystem state reproduces the first run exactly — same exit,
same calls, same final filesystem state (the artifact is overwritten with
an identical one). -/
theorem rerun_is_idempotent {C A : Type} (L : UltralyticsModel C A)
    (inv : Invocation) (fs0 : FS C A) :
    runScript L.behavior inv ((runScript L.behavior inv fs0).fs) =
      runScript L.behavior inv fs0 := by
  cases fs0 with
  | mk ck ar =>
    cases h : ck "yolo26n.pt" with
    | none =>
      simp [runScript, invoker, UltralyticsModel.behavior, h]
    | some c =>
      by_cases hs : L.supported "coreml"
      · by_cases hc : L.converts c "coreml" 640
        · simp only [runScript, invoker, UltralyticsModel.behavior, h, hs,
            hc, if_true]
          congr 1
          congr 1
          funext p
          by_cases hp : p = L.derivedPath "yolo26n.pt"
          · simp [hp]
          · simp [hp]
        · simp [runScript, invoker, UltralyticsModel.behavior, h, hs, hc]
      · simp [runScript, invoker, UltralyticsModel.behavior, h, hs]

/-- C6: the script validates nothing locally: for arbitrary checkpoint
path, format string and image size — including an empty format or size
zero — the invoker fails with `e` exactly when one of the two library
calls fails with `e`; in particular, whenever both library calls succeed
the run succeeds, so every failure originates inside the library. -/
theorem invoker_has_no_local_validation {H R : Type} {F : Type}
    (lib : LibBehavior H R F) (ckpt fmt : String) (sz : Nat) (fs0 : F)
    (e : LibError) :
    (invoker lib ckpt fmt sz fs0).exit = Except.error e ↔
      (lib.init fs0 ckpt = Except.error e ∨
        ∃ m, lib.init fs0 ckpt = Except.ok m ∧
          lib.exp fs0 m fmt sz = Except.error e) := by
  cases hi : lib.init fs0 ckpt with
  | error e0 =>
    have hx : (invoker lib ckpt fmt sz fs0).exit = Except.error e0 := by
      simp [invoker, hi]
    rw [hx]
    constructor
    · intro h
      injection h with h
      subst h
      exact Or.inl rfl
    · rintro (h | ⟨m, hm, _⟩)
      · injection h with h
        subst h
        rfl
      · cases hm
  | ok m =>
    cases he : lib.exp fs0 m fmt sz with
    | error e0 =>
      have hx : (invoker lib ckpt fmt sz fs0).exit = Except.error e0 := by
        simp [invoker, hi, he]
      rw [hx]
      constructor
      · intro h
        injection h with h
        subst h
        exact Or.inr ⟨m, rfl, he⟩
      · rintro (h | ⟨m2, hm2, h2⟩)
        · cases h
        · injection hm2 with hm2; subst hm2
          rw [he] at h2; injection h2 with h2; rw [h2]
    | ok r =>
      have hx : (invoker lib ckpt fmt sz fs0).exit = Except.ok () := by
        simp [invoker, hi, he]
      rw [hx]
      constructor
      · intro h; cases h
      · rintro (h | ⟨m2, hm2, h2⟩)
        · cases h
        · injection hm2 with hm2; subst hm2
          rw [he] at h2; cases h2

/-- C7: noninterference with the process context, and containment of side
effects: two runs whose invocations differ arbitrarily in argv, environment
variables, standard input or module name are identical, and the final
filesystem state is either the untouched initial state or exactly the state
the library's export call wrote. -/
theorem noninterference_of_invocation {H R : Type} {F : Type}
    (lib : LibBehavior H R F) (fs0 : F) (inv inv2 : Invocation) :
    runScript lib inv fs0 = runScript lib inv2 fs0 ∧
    ((runScript lib inv fs0).fs = fs0 ∨
      ∃ m r, lib.init fs0 "yolo26n.pt" = Except.ok m ∧
        lib.exp fs0 m "coreml" 640 = Except.ok r ∧
        (runScript lib inv fs0).fs = r.1) := by
  refine ⟨rfl, ?_⟩
  cases hi : lib.init fs0 "yolo26n.pt" with
  | error e => left; simp [runScript, invoker, hi]
  | ok m =>
    cases he : lib.exp fs0 m "coreml" 640 with
    | error e => left; simp [runScript, invoker, hi, he]
    | ok r =>
      right
      exact ⟨m, r, rfl, he, by simp [runScript, invoker, hi, he]⟩

/-- Helper shared by several theorems: the trace of a run is determined by
the constructor's outcome — the lone construction call when it fails, the
construction call followed by the export call on the returned handle when
it succeeds. -/
theorem runScript_calls_eq {H R : Type} {F : Type}
    (lib : LibBehavior H R F) (inv : Invocation) (fs0 : F) :
    (runScript lib inv fs0).calls =
      match lib.init fs0 "yolo26n.pt" with
      | .error _ => [Call.yoloInit "yolo26n.pt"]
      | .ok m =>
          [Call.yoloInit "yolo26n.pt", Call.yoloExport m "coreml" 640] := by
  cases hi : lib.init fs0 "yolo26n.pt" with
  | error e => simp [runScript, invoker, hi]
  | ok m =>
    cases he : lib.exp fs0 m "coreml" 640 with
    | error e => simp [runScript, invoker, hi, he]
    | ok r => simp [runScript, invoker, hi, he]

/-- C8: the hard-coded values are exactly `"yolo26n.pt"`, `"coreml"` and
`640`: every run is the invoker applied to precisely these three constants,
its first library call is the construction from `"yolo26n.pt"`, and every
export call in its trace carries format `"coreml"` and image size `640`. -/
theorem exact_hardcoded_values {H R : Type} {F : Type}
    (lib : LibBehavior H R F) (inv : Invocation) (fs0 : F) :
    runScript lib inv fs0 = invoker lib "yolo26n.pt" "coreml" 640 fs0 ∧
    (runScript lib inv fs0).calls.head? =
      some (Call.yoloInit "yolo26n.pt") ∧
    ∀ c ∈ (runScript lib inv fs0).calls, ∀ m f s,
      c = Call.yoloExport m f s → f = "coreml" ∧ s = 640 := by
  refine ⟨rfl, ?_, ?_⟩
  · rw [runScript_calls_eq]
    cases hi : lib.init fs0 "yolo26n.pt" with
    | error e => rfl
    | ok m => rfl
  · intro c hc m f s hcs
    rw [runScript_calls_eq] at hc
    cases hi : lib.init fs0 "yolo26n.pt" with
    | error e =>
      rw [hi] at hc
      simp at hc
      subst hc
      cases hcs
    | ok m0 =>
      rw [hi] at hc
      simp at hc
      rcases hc with hc | hc
      · subst hc; cases hcs
      · subst hc
        injection hcs with h1 h2 h3
        exact ⟨h2.symm, h3.symm⟩

/-- Instantiation of `exact_hardcoded_values` at the concrete library
`okLib`: the export call with the hard-coded arguments occurs in the trace
and those arguments are the hard-coded constants. -/
theorem exact_hardcoded_values_witness :
    Call.yoloExport () "coreml" 640 ∈ (runScript okLib inv0 false).calls ∧
      ("coreml" = "coreml" ∧ (640 : Nat) = 640) :=
  ⟨by decide,
    (exact_hardcoded_values okLib inv0 false).2.2
      (Call.yoloExport () "coreml" 640) (by decide) () "coreml" 640 rfl⟩

/-- C9: there is no entry-point guard in the module body: a run under any
module `__name__` — importing the module rather than invoking it as a
command — is identical to the run with `__name__` set to `"__main__"`, and
it still begins with the model-loading call, so mere import triggers the
load and the export pipeline with its filesystem write. -/
theorem import_triggers_side_effects {H R : Type} {F : Type}
    (lib : LibBehavior H R F) (fs0 : F) (inv : Invocation) :
    runScript lib inv fs0 = runScript lib inv.asMain fs0 ∧
    (runScript lib inv fs0).calls.head? =
      some (Call.yoloInit "yolo26n.pt") := by
  refine ⟨rfl, ?_⟩
  rw [runScript_calls_eq]
  cases hi : lib.init fs0 "yolo26n.pt" with
  | error e => rfl
  | ok m => rfl

/-- C10: every export call a run issues satisfies the data model's stated
invariants: its format string is non-empty and its image size is positive
— the library is never invoked with an empty format or a non-positive
size. -/
theorem export_call_satisfies_invariants {H R : Type} {F : Type}
    (lib : LibBehavior H R F) (inv : Invocation) (fs0 : F) :
    ∀ c ∈ (runScript lib inv fs0).calls, ∀ m f s,
      c = Call.yoloExport m f s → f ≠ "" ∧ 0 < s := by
  intro c hc m f s hcs
  rw [runScript_calls_eq] at hc
  cases hi : lib.init fs0 "yolo26n.pt" with
  | error e =>
    rw [hi] at hc
    simp at hc
    subst hc
    cases hcs
  | ok m0 =>
    rw [hi] at hc
    simp at hc
    rcases hc with hc | hc
    · subst hc; cases hcs
    · subst hc
      injection hcs with h1 h2 h3
      refine ⟨?_, ?_⟩
      · rw [← h2]; decide
      · rw [← h3]; decide

/-- Instantiation of `export_call_satisfies_invariants` at the concrete
library `okLib` under a second invocation context: the issued export call
has a non-empty format string and a positive image size. -/
theorem export_call_satisfies_invariants_witness :
    Call.yoloExport () "coreml" 640 ∈ (runScript okLib inv1 true).calls ∧
      (("coreml" : String) ≠ "" ∧ 0 < 640) :=
  ⟨by decide,
    export_call_satisfies_invariants okLib inv1 true
      (Call.yoloExport () "coreml" 640) (by decide) () "coreml" 640 rfl⟩
